import Mathlib

/-!
Verification development for the element framework
(`src/element_framework.py`): a static table of element data and a
pipeline of pure numeric functions (atomic impedance, three channel
frequencies, a consciousness-affinity score, pairwise impedance
matching and compound prediction).

The Python source is shallowly embedded: the table stores exact
rational literals, the derived quantities live in `ℝ`, optional
electronegativity is an `Option`, and Python's builtin `round`
(round half to even) is modelled by `roundHalfEven`.
-/

/-! ## Physical constants (from the source header) -/

/-- Planck constant in J·s. -/
noncomputable def H_PLANCK : ℝ := 6.62607e-34

/-- Planck constant in eV·s. -/
noncomputable def H_PLANCK_EV : ℝ := 4.135667e-15

/-- Speed of light in m/s. -/
def C_LIGHT : ℕ := 299792458

/-- Golden ratio. -/
noncomputable def PHI : ℝ := (1 + Real.sqrt 5) / 2

/-- Atomic mass unit in kg. -/
noncomputable def AMU_TO_KG : ℝ := 1.66054e-27

/-! ## The static element table -/

/-- Raw per-element record, one row of the `ELEMENT_DATA` dict:
atomic number, atomic mass (amu), first ionization energy (eV),
Pauling electronegativity (absent for noble gases), atomic radius
(pm), electron configuration. -/
structure ElementRecord where
  atomic_number : ℕ
  atomic_mass : ℚ
  ionization_energy : ℚ
  electronegativity : Option ℚ
  atomic_radius : ℚ
  electron_config : String
  deriving DecidableEq

/-- The `ELEMENT_DATA` dict of the source, as an association list. -/
def ELEMENT_DATA : List (String × ElementRecord) := [
  ("H",  ⟨1, 1.008, 13.598, some 2.20, 53, "1s1"⟩),
  ("He", ⟨2, 4.003, 24.587, none, 31, "1s2"⟩),
  ("Li", ⟨3, 6.941, 5.392, some 0.98, 167, "[He]2s1"⟩),
  ("Be", ⟨4, 9.012, 9.323, some 1.57, 112, "[He]2s2"⟩),
  ("B",  ⟨5, 10.81, 8.298, some 2.04, 87, "[He]2s2 2p1"⟩),
  ("C",  ⟨6, 12.01, 11.260, some 2.55, 77, "[He]2s2 2p2"⟩),
  ("N",  ⟨7, 14.01, 14.534, some 3.04, 75, "[He]2s2 2p3"⟩),
  ("O",  ⟨8, 16.00, 13.618, some 3.44, 73, "[He]2s2 2p4"⟩),
  ("F",  ⟨9, 19.00, 17.423, some 3.98, 71, "[He]2s2 2p5"⟩),
  ("Ne", ⟨10, 20.18, 21.565, none, 69, "[He]2s2 2p6"⟩),
  ("Na", ⟨11, 22.99, 5.139, some 0.93, 190, "[Ne]3s1"⟩),
  ("Mg", ⟨12, 24.31, 7.646, some 1.31, 160, "[Ne]3s2"⟩),
  ("Al", ⟨13, 26.98, 5.986, some 1.61, 143, "[Ne]3s2 3p1"⟩),
  ("Si", ⟨14, 28.09, 8.152, some 1.90, 118, "[Ne]3s2 3p2"⟩),
  ("P",  ⟨15, 30.97, 10.487, some 2.19, 110, "[Ne]3s2 3p3"⟩),
  ("S",  ⟨16, 32.07, 10.360, some 2.58, 103, "[Ne]3s2 3p4"⟩),
  ("Cl", ⟨17, 35.45, 12.968, some 3.16, 99, "[Ne]3s2 3p5"⟩),
  ("Ar", ⟨18, 39.95, 15.760, none, 97, "[Ne]3s2 3p6"⟩),
  ("K",  ⟨19, 39.10, 4.341, some 0.82, 243, "[Ar]4s1"⟩),
  ("Ca", ⟨20, 40.08, 6.113, some 1.00, 194, "[Ar]4s2"⟩),
  ("Sc", ⟨21, 44.96, 6.561, some 1.36, 184, "[Ar]3d1 4s2"⟩),
  ("Ti", ⟨22, 47.87, 6.828, some 1.54, 176, "[Ar]3d2 4s2"⟩),
  ("V",  ⟨23, 50.94, 6.746, some 1.63, 171, "[Ar]3d3 4s2"⟩),
  ("Cr", ⟨24, 52.00, 6.767, some 1.66, 166, "[Ar]3d5 4s1"⟩),
  ("Mn", ⟨25, 54.94, 7.434, some 1.55, 161, "[Ar]3d5 4s2"⟩),
  ("Fe", ⟨26, 55.85, 7.902, some 1.83, 156, "[Ar]3d6 4s2"⟩),
  ("Co", ⟨27, 58.93, 7.881, some 1.88, 152, "[Ar]3d7 4s2"⟩),
  ("Ni", ⟨28, 58.69, 7.640, some 1.91, 149, "[Ar]3d8 4s2"⟩),
  ("Cu", ⟨29, 63.55, 7.726, some 1.90, 145, "[Ar]3d10 4s1"⟩),
  ("Zn", ⟨30, 65.38, 9.394, some 1.65, 142, "[Ar]3d10 4s2"⟩),
  ("Ga", ⟨31, 69.72, 5.999, some 1.81, 136, "[Ar]3d10 4s2 4p1"⟩),
  ("Ge", ⟨32, 72.63, 7.900, some 2.01, 125, "[Ar]3d10 4s2 4p2"⟩),
  ("As", ⟨33, 74.92, 9.815, some 2.18, 114, "[Ar]3d10 4s2 4p3"⟩),
  ("Se", ⟨34, 78.97, 9.752, some 2.55, 103, "[Ar]3d10 4s2 4p4"⟩),
  ("Br", ⟨35, 79.90, 11.814, some 2.96, 94, "[Ar]3d10 4s2 4p5"⟩),
  ("Kr", ⟨36, 83.80, 14.000, none, 88, "[Ar]3d10 4s2 4p6"⟩),
  ("Rb", ⟨37, 85.47, 4.177, some 0.82, 265, "[Kr]5s1"⟩),
  ("Sr", ⟨38, 87.62, 5.695, some 0.95, 219, "[Kr]5s2"⟩),
  ("Ag", ⟨47, 107.87, 7.576, some 1.93, 165, "[Kr]4d10 5s1"⟩),
  ("Sn", ⟨50, 118.71, 7.344, some 1.96, 145, "[Kr]4d10 5s2 5p2"⟩),
  ("I",  ⟨53, 126.90, 10.451, some 2.66, 133, "[Kr]4d10 5s2 5p5"⟩),
  ("Cs", ⟨55, 132.91, 3.894, some 0.79, 298, "[Xe]6s1"⟩),
  ("Ba", ⟨56, 137.33, 5.212, some 0.89, 253, "[Xe]6s2"⟩),
  ("Au", ⟨79, 196.97, 9.226, some 2.54, 174, "[Xe]4f14 5d10 6s1"⟩),
  ("Hg", ⟨80, 200.59, 10.438, some 2.00, 171, "[Xe]4f14 5d10 6s2"⟩),
  ("Pb", ⟨82, 207.2, 7.417, some 2.33, 154, "[Xe]4f14 5d10 6s2 6p2"⟩),
  ("U",  ⟨92, 238.03, 6.194, some 1.38, 196, "[Rn]5f3 6d1 7s2"⟩)]

/-- One entry of the `PLANETARY_METALS` dict. -/
structure PlanetaryMetal where
  planet : String
  symbol : String
  day : String
  quality : String
  deriving DecidableEq

/-- The alchemical planetary correspondences of the source. -/
def PLANETARY_METALS : List (String × PlanetaryMetal) := [
  ("Au", ⟨"Sun", "☉", "Sunday", "Perfection, illumination"⟩),
  ("Ag", ⟨"Moon", "☽", "Monday", "Reflection, intuition"⟩),
  ("Hg", ⟨"Mercury", "☿", "Wednesday", "Transformation, communication"⟩),
  ("Cu", ⟨"Venus", "♀", "Friday", "Love, beauty, harmony"⟩),
  ("Fe", ⟨"Mars", "♂", "Tuesday", "Strength, action, will"⟩),
  ("Sn", ⟨"Jupiter", "♃", "Thursday", "Expansion, abundance"⟩),
  ("Pb", ⟨"Saturn", "♄", "Saturday", "Structure, limitation, time"⟩)]

/-- The `ELEMENT_NAMES` dict of the source. -/
def ELEMENT_NAMES : List (String × String) := [
  ("H", "Hydrogen"), ("He", "Helium"), ("Li", "Lithium"), ("Be", "Beryllium"),
  ("B", "Boron"), ("C", "Carbon"), ("N", "Nitrogen"), ("O", "Oxygen"),
  ("F", "Fluorine"), ("Ne", "Neon"), ("Na", "Sodium"), ("Mg", "Magnesium"),
  ("Al", "Aluminum"), ("Si", "Silicon"), ("P", "Phosphorus"), ("S", "Sulfur"),
  ("Cl", "Chlorine"), ("Ar", "Argon"), ("K", "Potassium"), ("Ca", "Calcium"),
  ("Sc", "Scandium"), ("Ti", "Titanium"), ("V", "Vanadium"), ("Cr", "Chromium"),
  ("Mn", "Manganese"), ("Fe", "Iron"), ("Co", "Cobalt"), ("Ni", "Nickel"),
  ("Cu", "Copper"), ("Zn", "Zinc"), ("Ga", "Gallium"), ("Ge", "Germanium"),
  ("As", "Arsenic"), ("Se", "Selenium"), ("Br", "Bromine"), ("Kr", "Krypton"),
  ("Rb", "Rubidium"), ("Sr", "Strontium"), ("Ag", "Silver"), ("Sn", "Tin"),
  ("I", "Iodine"), ("Cs", "Cesium"), ("Ba", "Barium"), ("Au", "Gold"),
  ("Hg", "Mercury"), ("Pb", "Lead"), ("U", "Uranium")]

/-- Derived per-element profile, mirroring the `ElementProfile`
dataclass of the source. -/
structure ElementProfile where
  symbol : String
  name : String
  atomic_number : ℕ
  atomic_mass : ℝ
  ionization_energy : ℝ
  electronegativity : Option ℝ
  atomic_radius : ℝ
  electron_config : String
  impedance : ℝ
  impedance_log : ℝ
  f_quantum : ℝ
  f_acoustic : ℝ
  f_chemical : ℝ
  consciousness_affinity : ℝ
  nearest_brainwave : String
  planetary_metal : Option PlanetaryMetal
  category : String

/-! ## Rounding -/

/-- Model of Python's builtin `round` on reals (as used for
`nearest_octave` in `calculate_consciousness_affinity`): round to the
nearest integer, ties to the even neighbour. -/
noncomputable def roundHalfEven (x : ℝ) : ℤ :=
  if x - ⌊x⌋ < 1/2 then ⌊x⌋
  else if 1/2 < x - ⌊x⌋ then ⌊x⌋ + 1
  else if ⌊x⌋ % 2 = 0 then ⌊x⌋ else ⌊x⌋ + 1

/-- Rounding as the specification words demand for `nearest_octave`:
round to the nearest integer with ties away from zero. Stated only to
be compared with `roundHalfEven`, the rounding the code performs. -/
noncomputable def roundHalfAwayFromZero (x : ℝ) : ℤ :=
  if 0 ≤ x then ⌊x + 1/2⌋ else ⌈x - 1/2⌉

/-! ## The calculators -/

/-- `calculate_atomic_impedance` of the source: radius is rescaled by
100, the impedance is `E/r` without electronegativity and
`sqrt(E*chi)/r` with it, and the log impedance is `ln(Z + 1)`. -/
noncomputable def calculate_atomic_impedance (ionization_ev : ℝ)
    (electronegativity : Option ℝ) (radius_pm : ℝ) : ℝ × ℝ :=
  let r_angstrom := radius_pm / 100
  let Z : ℝ :=
    match electronegativity with
    | none => ionization_ev / r_angstrom
    | some chi => Real.sqrt (ionization_ev * chi) / r_angstrom
  (Z, Real.log (Z + 1))

/-- `calculate_frequencies` of the source: quantum, acoustic and
chemical channel frequencies from ionization energy and mass. -/
noncomputable def calculate_frequencies (ionization_ev atomic_mass_amu : ℝ) :
    ℝ × ℝ × ℝ :=
  let f_quantum := ionization_ev / H_PLANCK_EV
  let f_acoustic := 1e13 * atomic_mass_amu ^ ((-1 : ℝ)/3)
  let bond_energy_est := 0.3 * ionization_ev
  let f_chemical := bond_energy_est / H_PLANCK_EV
  (f_quantum, f_acoustic, f_chemical)

/-- The consciousness frequency targets of the source, in iteration
order of the Python dict. -/
noncomputable def consciousness_freqs : List (String × ℝ) :=
  [("delta", 2), ("theta", 6), ("alpha", 10), ("beta", 20),
   ("gamma", 40), ("high_gamma", 100)]

/-- The per-band affinity of the loop body in
`calculate_consciousness_affinity`: log10 of the subharmonic
frequency quotient, deviation from the nearest octave, and a sharp
exponential peak at harmonics. -/
noncomputable def bandAffinity (f_acoustic f_brain : ℝ) : ℝ :=
  let lr := Real.logb 10 (f_acoustic / f_brain)
  let dev := |lr - (roundHalfEven lr : ℝ)|
  Real.exp (-dev * 5)

/-- One step of the best-band tracking loop: update exactly when the
band affinity strictly exceeds the best so far. -/
noncomputable def bestBandStep (f_acoustic : ℝ) (acc : ℝ × String)
    (bf : String × ℝ) : ℝ × String :=
  let affinity := bandAffinity f_acoustic bf.2
  if acc.1 < affinity then (affinity, bf.1) else acc

/-- `calculate_consciousness_affinity` of the source: best band by the
loop above, an impedance factor peaked at impedance 3, and the final
affinity clamped above by 1. Only `f_acoustic` and `impedance` are
consulted; `f_quantum` and `f_chemical` are accepted and ignored, as
in the source. -/
noncomputable def calculate_consciousness_affinity
    (f_quantum f_acoustic f_chemical impedance : ℝ) : ℝ × String :=
  let best := consciousness_freqs.foldl (bestBandStep f_acoustic) (0, "none")
  let impedance_factor := Real.exp (-(((impedance - 3) / 2) ^ 2))
  let final_affinity := best.1 * impedance_factor
  (min 1 final_affinity, best.2)

/-- `classify_element` of the source: the elif chain over atomic
numbers, first matching rule wins. -/
def classify_element (atomic_number : ℕ) (electron_config : String) : String :=
  if atomic_number ∈ [2, 10, 18, 36, 54, 86] then "Noble Gas"
  else if atomic_number ∈ [1] then "Nonmetal"
  else if atomic_number ∈ [3, 11, 19, 37, 55, 87] then "Alkali Metal"
  else if atomic_number ∈ [4, 12, 20, 38, 56, 88] then "Alkaline Earth"
  else if atomic_number ∈ [6, 7, 8, 15, 16, 34] then "Nonmetal"
  else if atomic_number ∈ [9, 17, 35, 53, 85] then "Halogen"
  else if (21 ≤ atomic_number ∧ atomic_number ≤ 30) ∨
          (39 ≤ atomic_number ∧ atomic_number ≤ 48) ∨
          (72 ≤ atomic_number ∧ atomic_number ≤ 80) then "Transition Metal"
  else if 57 ≤ atomic_number ∧ atomic_number ≤ 71 then "Lanthanide"
  else if 89 ≤ atomic_number ∧ atomic_number ≤ 103 then "Actinide"
  else "Other Metal"

/-! ## The analyzer -/

/-- Assembly of an `ElementProfile` from a raw table record, exactly
the body of `analyze_element` after the table lookup succeeded. -/
noncomputable def profileOf (symbol : String) (d : ElementRecord) : ElementProfile :=
  let imp := calculate_atomic_impedance (d.ionization_energy : ℝ)
    (d.electronegativity.map (fun q => (q : ℝ))) (d.atomic_radius : ℝ)
  let freqs := calculate_frequencies (d.ionization_energy : ℝ) (d.atomic_mass : ℝ)
  let aff := calculate_consciousness_affinity freqs.1 freqs.2.1 freqs.2.2 imp.1
  { symbol := symbol
    name := (ELEMENT_NAMES.lookup symbol).getD symbol
    atomic_number := d.atomic_number
    atomic_mass := (d.atomic_mass : ℝ)
    ionization_energy := (d.ionization_energy : ℝ)
    electronegativity := d.electronegativity.map (fun q => (q : ℝ))
    atomic_radius := (d.atomic_radius : ℝ)
    electron_config := d.electron_config
    impedance := imp.1
    impedance_log := imp.2
    f_quantum := freqs.1
    f_acoustic := freqs.2.1
    f_chemical := freqs.2.2
    consciousness_affinity := aff.1
    nearest_brainwave := aff.2
    planetary_metal := PLANETARY_METALS.lookup symbol
    category := classify_element d.atomic_number d.electron_config }

/-- `analyze_element` of the source: `None` when the symbol is not a
key of `ELEMENT_DATA`, otherwise the assembled profile. -/
noncomputable def analyze_element (symbol : String) : Option ElementProfile :=
  match ELEMENT_DATA.lookup symbol with
  | none => none
  | some d => some (profileOf symbol d)

/-! ## Compound analysis -/

/-- `calculate_impedance_match` of the source: the sentinel
`(0.0, "Unknown element")` when either symbol fails to resolve,
otherwise the Gaussian log-impedance match score with its
interpretation label. -/
noncomputable def calculate_impedance_match (element1 element2 : String) :
    ℝ × String :=
  match analyze_element element1, analyze_element element2 with
  | some p1, some p2 =>
      let sigma : ℝ := 0.5
      let delta_log := p1.impedance_log - p2.impedance_log
      let R := Real.exp (-(delta_log ^ 2) / (2 * sigma ^ 2))
      (R, if 0.8 < R then "Excellent match - natural affinity"
          else if 0.5 < R then "Good match - can combine with moderate energy"
          else if 0.2 < R then "Weak match - requires significant energy to combine"
          else "Poor match - unlikely to form stable compound")
  | _, _ => (0, "Unknown element")

/-- Arithmetic mean of a list of reals (`np.mean`). -/
noncomputable def mean (l : List ℝ) : ℝ := l.sum / l.length

/-- All unordered pairs of list entries in order, mirroring the nested
`for i, p1 in enumerate(profiles): for p2 in profiles[i+1:]` loop. -/
def upperPairs {α : Type} : List α → List (α × α)
  | [] => []
  | x :: xs => xs.map (fun y => (x, y)) ++ upperPairs xs

/-- The success dict returned by `predict_compound_frequency`. -/
structure CompoundResult where
  elements : List String
  total_mass : ℝ
  f_acoustic_compound : ℝ
  f_chemical_avg : ℝ
  compound_impedance : ℝ
  average_impedance_match : ℝ
  stability_prediction : String

/-- `predict_compound_frequency` of the source. The Python function
returns either a dict holding only an `error` key (when fewer than two
symbols resolve) or the full result dict; that disjoint union is
embedded as `Except`, with the error message as the error value. -/
noncomputable def predict_compound_frequency (elements : List String) :
    Except String CompoundResult :=
  let profiles := (elements.map analyze_element).filterMap id
  if profiles.length < 2 then Except.error "Need at least 2 valid elements"
  else
    let total_mass := (profiles.map (fun p => p.atomic_mass)).sum
    let f_acoustic_compound := 1e13 * total_mass ^ ((-1 : ℝ)/3)
    let f_chemical_avg := mean (profiles.map (fun p => p.f_chemical))
    let Z_compound := Real.exp (mean (profiles.map (fun p => p.impedance_log)))
    let match_scores := (upperPairs profiles).map
      (fun pq => (calculate_impedance_match pq.1.symbol pq.2.symbol).1)
    let avg_match := if match_scores = [] then (0 : ℝ) else mean match_scores
    Except.ok
      { elements := profiles.map (fun p => p.symbol)
        total_mass := total_mass
        f_acoustic_compound := f_acoustic_compound
        f_chemical_avg := f_chemical_avg
        compound_impedance := Z_compound
        average_impedance_match := avg_match
        stability_prediction :=
          if 0.5 < avg_match then "Stable"
          else if avg_match < 0.2 then "Unstable" else "Metastable" }

/-! ## Accessors used by the concrete-value statements -/

/-- The impedance field of the profile `analyze_element` returns,
with 0 as the out-of-table default. -/
noncomputable def impedanceOf (s : String) : ℝ :=
  ((analyze_element s).map ElementProfile.impedance).getD 0

/-- The quantum frequency field of the profile `analyze_element`
returns, with 0 as the out-of-table default. -/
noncomputable def fQuantumOf (s : String) : ℝ :=
  ((analyze_element s).map ElementProfile.f_quantum).getD 0

/-! ## Helper lemmas -/

/-- The analyzer is the table lookup followed by profile assembly. -/
theorem analyze_lookup (s : String) :
    analyze_element s = (ELEMENT_DATA.lookup s).map (profileOf s) := by
  unfold analyze_element
  cases ELEMENT_DATA.lookup s <;> rfl

/-- Every band affinity is strictly positive. -/
theorem bandAffinity_pos (fa fb : ℝ) : 0 < bandAffinity fa fb :=
  Real.exp_pos _

/-- The best-affinity accumulator of the band loop never drops below
its starting value. -/
theorem bestBand_fst_nonneg (fa : ℝ) (l : List (String × ℝ)) (acc : ℝ × String)
    (h : 0 ≤ acc.1) : 0 ≤ (l.foldl (bestBandStep fa) acc).1 := by
  induction l generalizing acc with
  | nil => simpa using h
  | cons bf t ih =>
      rw [List.foldl_cons]
      apply ih
      unfold bestBandStep
      rcases lt_or_le acc.1 (bandAffinity fa bf.2) with hlt | hle
      · rw [if_pos hlt]
        exact le_of_lt (lt_of_le_of_lt h hlt)
      · rw [if_neg (not_lt.mpr hle)]
        exact h

/-- The first component of `calculate_consciousness_affinity` lies in
the unit interval, for arbitrary real inputs. -/
theorem affinity_unit (fq fa fc z : ℝ) :
    0 ≤ (calculate_consciousness_affinity fq fa fc z).1 ∧
      (calculate_consciousness_affinity fq fa fc z).1 ≤ 1 := by
  unfold calculate_consciousness_affinity
  constructor
  · exact le_min (by norm_num)
      (mul_nonneg (bestBand_fst_nonneg _ _ _ le_rfl) (Real.exp_pos _).le)
  · exact min_le_left _ _

/-- The label the band loop returns is always one of the six band
names: the first band already beats the initial affinity 0. -/
theorem bestBand_label_mem (fa : ℝ) :
    (consciousness_freqs.foldl (bestBandStep fa) (0, "none")).2 ∈
      ["delta", "theta", "alpha", "beta", "gamma", "high_gamma"] := by
  have h2 : (0:ℝ) < bandAffinity fa 2 := bandAffinity_pos fa 2
  simp only [consciousness_freqs, List.foldl_cons, List.foldl_nil, bestBandStep]
  revert h2
  generalize bandAffinity fa 2 = a1
  generalize bandAffinity fa 6 = a2
  generalize bandAffinity fa 10 = a3
  generalize bandAffinity fa 20 = a4
  generalize bandAffinity fa 40 = a5
  generalize bandAffinity fa 100 = a6
  intro h2
  split_ifs <;> simp_all

/-- A symbol contributes a profile exactly when it is a key of the
table: the unresolved symbols are dropped and the resolved ones
counted. -/
theorem resolved_length (es : List String) :
    ((es.map analyze_element).filterMap id).length =
      (es.filterMap (fun s => ELEMENT_DATA.lookup s)).length := by
  induction es with
  | nil => rfl
  | cons s t ih =>
      rw [List.map_cons, List.filterMap_cons, List.filterMap_cons, analyze_lookup]
      cases h : ELEMENT_DATA.lookup s with
      | none => simpa using ih
      | some d => simpa using ih

/-- The affinity field of an assembled profile is the first component
of the scorer output, hence in the unit interval. -/
theorem profile_affinity_unit (s : String) (d : ElementRecord) :
    0 ≤ (profileOf s d).consciousness_affinity ∧
      (profileOf s d).consciousness_affinity ≤ 1 :=
  affinity_unit
    (calculate_frequencies (d.ionization_energy : ℝ) (d.atomic_mass : ℝ)).1
    (calculate_frequencies (d.ionization_energy : ℝ) (d.atomic_mass : ℝ)).2.1
    (calculate_frequencies (d.ionization_energy : ℝ) (d.atomic_mass : ℝ)).2.2
    (calculate_atomic_impedance (d.ionization_energy : ℝ)
      (d.electronegativity.map (fun q => (q : ℝ))) (d.atomic_radius : ℝ)).1

/-- The band label of an assembled profile is one of the six band
names. -/
theorem profile_band_label (s : String) (d : ElementRecord) :
    (profileOf s d).nearest_brainwave ∈
      ["delta", "theta", "alpha", "beta", "gamma", "high_gamma"] :=
  bestBand_label_mem
    (calculate_frequencies (d.ionization_energy : ℝ) (d.atomic_mass : ℝ)).2.1

/-! ## Claims -/

/-- C7: for every symbol in the element table, the
`consciousness_affinity` field of the profile returned by
`analyze_element` lies in the closed interval [0, 1]. -/
theorem claim_C7_affinity_unit_interval :
    ∀ s : String,
      match analyze_element s with
      | some p => 0 ≤ p.consciousness_affinity ∧ p.consciousness_affinity ≤ 1
      | none => True := by
  intro s
  rw [analyze_lookup]
  cases ELEMENT_DATA.lookup s with
  | none => trivial
  | some d => exact profile_affinity_unit s d

/-- C10: for every symbol in the element table, the
`nearest_brainwave` field of the profile returned by `analyze_element`
is one of the six band labels and never the placeholder "none",
because every band affinity is strictly positive and therefore beats
the initial best affinity 0. -/
theorem claim_C10_nearest_band :
    ∀ s : String,
      match analyze_element s with
      | some p =>
          p.nearest_brainwave ∈
              ["delta", "theta", "alpha", "beta", "gamma", "high_gamma"] ∧
            p.nearest_brainwave ≠ "none"
      | none => True := by
  intro s
  rw [analyze_lookup]
  cases ELEMENT_DATA.lookup s with
  | none => trivial
  | some d =>
      have hmem := profile_band_label s d
      have hnone : ("none" : String) ∉
          (["delta", "theta", "alpha", "beta", "gamma", "high_gamma"] :
            List String) := by decide
      exact ⟨hmem, fun h => hnone (h ▸ hmem)⟩

/-- C2: `predict_compound_frequency` silently drops the symbols that
are not keys of the table and fails with the insufficient-elements
error exactly when fewer than 2 symbols resolve; with 2 or more
resolved symbols it returns a `CompoundResult`. -/
theorem claim_C2_insufficient_elements (es : List String) :
    ((es.filterMap (fun s => ELEMENT_DATA.lookup s)).length < 2 →
      predict_compound_frequency es =
        Except.error "Need at least 2 valid elements") ∧
    (2 ≤ (es.filterMap (fun s => ELEMENT_DATA.lookup s)).length →
      ∃ r, predict_compound_frequency es = Except.ok r) := by
  have hlen := resolved_length es
  constructor
  · intro h
    have hc : ((es.map analyze_element).filterMap id).length < 2 := by omega
    simp only [predict_compound_frequency]
    rw [if_pos hc]
  · intro h
    have hc : ¬ ((es.map analyze_element).filterMap id).length < 2 := by omega
    simp only [predict_compound_frequency]
    rw [if_neg hc]
    exact ⟨_, rfl⟩

/-- Witness for C2: a single resolved symbol fails, a list of only
unknown symbols fails, and two resolved symbols succeed. -/
theorem claim_C2_witness :
    predict_compound_frequency ["Fe"] =
        Except.error "Need at least 2 valid elements" ∧
    predict_compound_frequency ["Xx", "Yy"] =
        Except.error "Need at least 2 valid elements" ∧
    predict_compound_frequency ["Na", "Cl"] ≠
        Except.error "Need at least 2 valid elements" := by
  refine ⟨(claim_C2_insufficient_elements ["Fe"]).1 (by decide),
    (claim_C2_insufficient_elements ["Xx", "Yy"]).1 (by decide), ?_⟩
  obtain ⟨r, hr⟩ := (claim_C2_insufficient_elements ["Na", "Cl"]).2 (by decide)
  rw [hr]
  simp

/-- C1: when at least one of the two symbols is not a key of the
element table, `calculate_impedance_match` signals the failure
explicitly: it returns the sentinel `(0, "Unknown element")`, which is
distinct from every ordinary score-and-label result — calls on two
resolved symbols always return a strictly positive score and one of
the four match labels, never this sentinel. -/
theorem claim_C1_unknown_sentinel (a b : String) :
    (ELEMENT_DATA.lookup a = none ∨ ELEMENT_DATA.lookup b = none →
      calculate_impedance_match a b = (0, "Unknown element")) ∧
    (ELEMENT_DATA.lookup a ≠ none → ELEMENT_DATA.lookup b ≠ none →
      0 < (calculate_impedance_match a b).1 ∧
        (calculate_impedance_match a b).2 ≠ "Unknown element") := by
  constructor
  · intro h
    unfold calculate_impedance_match
    rw [analyze_lookup a, analyze_lookup b]
    rcases h with h | h <;> rw [h]
    · rfl
    · cases ELEMENT_DATA.lookup a <;> rfl
  · intro ha hb
    obtain ⟨ra, hra⟩ := Option.ne_none_iff_exists'.mp ha
    obtain ⟨rb, hrb⟩ := Option.ne_none_iff_exists'.mp hb
    unfold calculate_impedance_match
    rw [analyze_lookup a, analyze_lookup b, hra, hrb]
    simp only [Option.map_some']
    constructor
    · exact Real.exp_pos _
    · show (if (0.8:ℝ) < _ then _ else _) ≠ "Unknown element"
      split_ifs <;> decide

/-- Witness for C1: an unknown symbol yields the sentinel, and a
resolved pair yields a positive score with an ordinary label. -/
theorem claim_C1_witness :
    calculate_impedance_match "Xx" "H" = (0, "Unknown element") ∧
    0 < (calculate_impedance_match "H" "Fe").1 ∧
    (calculate_impedance_match "H" "Fe").2 ≠ "Unknown element" :=
  ⟨(claim_C1_unknown_sentinel "Xx" "H").1 (Or.inl (by decide)),
    (claim_C1_unknown_sentinel "H" "Fe").2 (by decide) (by decide)⟩

/-- C8: for every pair of symbols in the element table, the score
component of `calculate_impedance_match` is symmetric in its two
arguments. -/
theorem claim_C8_symmetric (a b : String) (ha : ELEMENT_DATA.lookup a ≠ none)
    (hb : ELEMENT_DATA.lookup b ≠ none) :
    (calculate_impedance_match a b).1 = (calculate_impedance_match b a).1 := by
  obtain ⟨ra, hra⟩ := Option.ne_none_iff_exists'.mp ha
  obtain ⟨rb, hrb⟩ := Option.ne_none_iff_exists'.mp hb
  unfold calculate_impedance_match
  rw [analyze_lookup a, analyze_lookup b, hra, hrb]
  simp only [Option.map_some']
  show Real.exp _ = Real.exp _
  congr 1
  ring

/-- Witness for C8 at the pair (Na, Cl). -/
theorem claim_C8_witness :
    (calculate_impedance_match "Na" "Cl").1 =
      (calculate_impedance_match "Cl" "Na").1 :=
  claim_C8_symmetric "Na" "Cl" (by decide) (by decide)

/-- C9: for every symbol in the element table, matching an element
with itself returns the score 1 exactly, because the difference of
log impedances is exactly 0. -/
theorem claim_C9_self_match (a : String) (ha : ELEMENT_DATA.lookup a ≠ none) :
    (calculate_impedance_match a a).1 = 1 := by
  obtain ⟨ra, hra⟩ := Option.ne_none_iff_exists'.mp ha
  unfold calculate_impedance_match
  rw [analyze_lookup a, hra]
  simp only [Option.map_some']
  show Real.exp _ = 1
  rw [sub_self]
  norm_num

/-- Witness for C9 at the symbol Au. -/
theorem claim_C9_witness : (calculate_impedance_match "Au" "Au").1 = 1 :=
  claim_C9_self_match "Au" (by decide)

/-- C6: for positive ionization energy and radius, the impedance
calculator rescales the radius by 100 and branches on the optional
electronegativity: `E/r` when absent, `sqrt(E*chi)/r` when present,
with `impedance_log = ln(impedance + 1)`; the absent branch is
genuinely distinct from a numeric default of 0, whose impedance
would be 0 while the absent branch is strictly positive. -/
theorem claim_C6_impedance_formulas (E r c : ℝ) (hE : 0 < E) (hr : 0 < r) :
    calculate_atomic_impedance E none r =
        (E / (r / 100), Real.log (E / (r / 100) + 1)) ∧
    calculate_atomic_impedance E (some c) r =
        (Real.sqrt (E * c) / (r / 100),
          Real.log (Real.sqrt (E * c) / (r / 100) + 1)) ∧
    (calculate_atomic_impedance E (some 0) r).1 = 0 ∧
    0 < (calculate_atomic_impedance E none r).1 := by
  refine ⟨rfl, rfl, ?_, ?_⟩
  · show Real.sqrt (E * 0) / (r / 100) = 0
    simp
  · show 0 < E / (r / 100)
    positivity

/-- Witness for C6 at the hydrogen inputs. -/
theorem claim_C6_witness :
    calculate_atomic_impedance 13.598 (some 2.2) 53 =
      (Real.sqrt (13.598 * 2.2) / (53 / 100),
        Real.log (Real.sqrt (13.598 * 2.2) / (53 / 100) + 1)) :=
  (claim_C6_impedance_formulas 13.598 53 2.2 (by norm_num) (by norm_num)).2.1

/-- C5 counterexample: the impedance calculator does not reject
out-of-precondition inputs. At radius −10000 (≤ 0) it computes the
ordinary numeric result −1/100, and at ionization energy −1 (< 0) it
likewise computes −1/100 — no distinct rejection signal exists. -/
theorem claim_C5_counterexample :
    (calculate_atomic_impedance 1 none (-10000)).1 = -(1/100) ∧
    (calculate_atomic_impedance (-1) none 10000).1 = -(1/100) := by
  constructor
  · show (1:ℝ) / ((-10000) / 100) = -(1/100)
    norm_num
  · show (-1:ℝ) / (10000 / 100) = -(1/100)
    norm_num

/-- C5 (amended): the impedance calculator performs no defensive
check: on radius < 0 with non-negative energy inputs it still
computes a numeric result from the same formulas — a non-positive
impedance — instead of signalling a precondition violation. -/
theorem claim_C5_no_defensive_check (E r : ℝ) (chi : Option ℝ)
    (hr : r < 0) (hE : 0 ≤ E) (hchi : ∀ c ∈ chi, 0 ≤ c) :
    (calculate_atomic_impedance E chi r).1 ≤ 0 := by
  cases chi with
  | none =>
      show E / (r / 100) ≤ 0
      apply div_nonpos_of_nonneg_of_nonpos hE
      linarith
  | some c =>
      show Real.sqrt (E * c) / (r / 100) ≤ 0
      apply div_nonpos_of_nonneg_of_nonpos (Real.sqrt_nonneg _)
      linarith

/-- Witness for the amended C5 at energy 1 and radius −10000. -/
theorem claim_C5_witness : (calculate_atomic_impedance 1 none (-10000)).1 ≤ 0 :=
  claim_C5_no_defensive_check 1 (-10000) none (by norm_num) (by norm_num)
    (by simp)

/-- C3 counterexample: at the half-integer log-ratio 1/2 the rounding
the code performs gives 0 — the even neighbour, toward zero — while
round-half-away-from-zero gives 1, so `nearest_octave` is not
computed with round-half-away-from-zero. -/
theorem claim_C3_counterexample :
    roundHalfEven ((1:ℝ)/2) = 0 ∧ roundHalfAwayFromZero ((1:ℝ)/2) = 1 := by
  have hfl : ⌊(1:ℝ)/2⌋ = 0 := by
    rw [Int.floor_eq_zero_iff]
    constructor <;> norm_num
  constructor
  · unfold roundHalfEven
    rw [hfl]
    norm_num
  · unfold roundHalfAwayFromZero
    rw [if_pos (by norm_num)]
    norm_num

/-- C3 (amended): `nearest_octave` is computed from `log_ratio` with
Python's builtin `round`, which rounds half to even: at every
half-integer the result is the even neighbour — the integer part
itself when it is even, its successor when it is odd — never
systematically away from zero. -/
theorem claim_C3_round_half_even (n : ℤ) :
    roundHalfEven ((n : ℝ) + 1/2) = if n % 2 = 0 then n else n + 1 := by
  have hfl : ⌊(n : ℝ) + 1/2⌋ = n := by
    rw [Int.floor_int_add]
    have : ⌊(1:ℝ)/2⌋ = 0 := by
      rw [Int.floor_eq_zero_iff]
      constructor <;> norm_num
    rw [show ((1:ℝ)/2 : ℝ) = 1/2 from rfl, this, add_zero]
  unfold roundHalfEven
  rw [hfl]
  rw [if_neg (by intro hcon; linarith),
    if_neg (by intro hcon; linarith)]

/-- The impedance the analyzer derives for hydrogen, in closed form:
the table row gives ionization energy 13.598, electronegativity 2.20
and radius 53 pm. -/
theorem impedanceOf_H :
    impedanceOf "H" = Real.sqrt (13.598 * 2.20) / 0.53 := by
  have hH : ELEMENT_DATA.lookup "H" =
      some ⟨1, 1.008, 13.598, some 2.20, 53, "1s1"⟩ := by rfl
  unfold impedanceOf
  rw [analyze_lookup, hH]
  simp only [Option.map_some', Option.getD_some]
  show (calculate_atomic_impedance ((13.598 : ℚ) : ℝ)
      (Option.map (fun q => (q : ℝ)) (some (2.20 : ℚ))) ((53 : ℚ) : ℝ)).1 = _
  simp only [Option.map_some']
  show Real.sqrt (((13.598 : ℚ) : ℝ) * ((2.20 : ℚ) : ℝ)) / (((53 : ℚ) : ℝ) / 100) = _
  norm_num

/-- The quantum frequency the analyzer derives for hydrogen, in
closed form. -/
theorem fQuantumOf_H : fQuantumOf "H" = 13.598 / 4.135667e-15 := by
  have hH : ELEMENT_DATA.lookup "H" =
      some ⟨1, 1.008, 13.598, some 2.20, 53, "1s1"⟩ := by rfl
  unfold fQuantumOf
  rw [analyze_lookup, hH]
  simp only [Option.map_some', Option.getD_some]
  show ((13.598 : ℚ) : ℝ) / H_PLANCK_EV = _
  unfold H_PLANCK_EV
  norm_num

/-- C4 counterexample: the hydrogen impedance
`sqrt(13.598 × 2.20)/0.53` is about 10.3198, which is not within
0.01 of 10.30. -/
theorem claim_C4_counterexample : ¬ (|impedanceOf "H" - 10.30| ≤ 0.01) := by
  rw [impedanceOf_H, abs_le]
  have hlb : (5.4643 : ℝ) < Real.sqrt (13.598 * 2.20) :=
    Real.lt_sqrt_of_sq_lt (by norm_num)
  have hdiv : Real.sqrt (13.598 * 2.20) / 0.53 =
      Real.sqrt (13.598 * 2.20) * (100 / 53) := by ring
  rw [hdiv]
  push_neg
  intro hlow
  linarith

/-- C4 (amended): for hydrogen, `analyze_element` produces
`impedance = sqrt(13.598 × 2.20)/0.53`, approximately 10.32 within
±0.01, and `f_quantum = 13.598/4.135667e-15`, approximately 3.288e15
within ±0.001e15. -/
theorem claim_C4_hydrogen_values :
    impedanceOf "H" = Real.sqrt (13.598 * 2.20) / 0.53 ∧
    |impedanceOf "H" - 10.32| ≤ 0.01 ∧
    fQuantumOf "H" = 13.598 / 4.135667e-15 ∧
    |fQuantumOf "H" - 3.288e15| ≤ 0.001e15 := by
  refine ⟨impedanceOf_H, ?_, fQuantumOf_H, ?_⟩
  · rw [impedanceOf_H, abs_le]
    have hlb : (5.4643 : ℝ) ≤ Real.sqrt (13.598 * 2.20) :=
      Real.le_sqrt_of_sq_le (by norm_num)
    have hub : Real.sqrt (13.598 * 2.20) ≤ 5.4749 :=
      Real.sqrt_le_iff.mpr (by norm_num)
    have hdiv : Real.sqrt (13.598 * 2.20) / 0.53 =
        Real.sqrt (13.598 * 2.20) * (100 / 53) := by ring
    rw [hdiv]
    constructor <;> linarith
  · rw [fQuantumOf_H, abs_le]
    constructor <;> norm_num
